import Mathlib

/-!
Shallow embedding of the loan-lifecycle core of the Perpustakaan-Digital
repository (Firestore service functions: addBook, deleteBook, borrowBook,
returnBook, hasUserBorrowedBook, and the document types Book/Transaction).

The remote document store is modelled as two association lists keyed by
document id (collection books, collection transactions).  Firestore's
`serverTimestamp()` is modelled by an explicit `now : Nat` argument; the
store-generated fresh document ids (`addDoc` / `doc(collectionRef)`) are
modelled as explicit id arguments, with freshness stated as a hypothesis
where a theorem needs it (Firestore auto-ids are random and never collide
with existing documents).  A `runTransaction` callback that throws aborts
the transaction and leaves the store unchanged, so every operation returns
the resulting store next to its `Except` result: on error the returned
store is the input store.  JavaScript `Error` objects are modelled by their
`message` string, which is all the source ever puts in them.
-/

namespace Perpus

/-- Availability status of a book, from the `Book`/`BookDoc` interfaces. -/
inductive BookStatus where
  | AVAILABLE
  | BORROWED
  deriving DecidableEq, Repr

/-- Status of a loan transaction, from the `Transaction`/`TransactionDoc`
interfaces. -/
inductive TxStatus where
  | BORROWED
  | RETURNED
  deriving DecidableEq, Repr

/-- User role, from the `User` interface. -/
inductive Role where
  | admin
  | member
  deriving DecidableEq, Repr

/-- The `User` interface: uid, email, role, name. -/
structure User where
  uid : String
  email : String
  role : Role
  name : String
  deriving DecidableEq, Repr

/-- The `BookDoc` interface: a book document as stored in the `books`
collection (the id is the document key, kept outside).  Timestamps are
naturals; optional fields are `Option`. -/
structure BookDoc where
  title : String
  author : String
  coverUrl : String
  status : BookStatus
  description : Option String
  isbn : Option String
  createdAt : Option Nat
  updatedAt : Option Nat
  deriving DecidableEq, Repr

/-- The `TransactionDoc` interface: a loan entry as stored in the
`transactions` collection. -/
structure TransactionDoc where
  bookId : String
  userId : String
  borrowDate : Nat
  returnDate : Option Nat
  status : TxStatus
  bookTitle : Option String
  userName : Option String
  deriving DecidableEq, Repr

/-- A JavaScript `Error`, identified by its message string (the only field
the source ever sets or reads). -/
structure JsError where
  message : String
  deriving DecidableEq, Repr

/-- The `BorrowBookResponse` interface. -/
structure BorrowBookResponse where
  transactionId : String
  message : String
  deriving DecidableEq, Repr

/-- The `ReturnBookResponse` interface. -/
structure ReturnBookResponse where
  transactionId : String
  message : String
  deriving DecidableEq, Repr

/-- The remote document store: the `books` and `transactions` collections,
each a list of (document id, document) pairs. -/
structure DB where
  books : List (String × BookDoc)
  txs : List (String × TransactionDoc)
  deriving DecidableEq, Repr

/-- The empty store. -/
def emptyDB : DB := { books := [], txs := [] }

/-- Look a document up by id in a collection (models `getDoc` /
`transaction.get`: `none` when the snapshot does not exist). -/
def findDoc (l : List (String × α)) (k : String) : Option α :=
  match l with
  | [] => none
  | (k', v) :: rest => if k' = k then some v else findDoc rest k

/-- Update the fields of the document with the given id (models
`transaction.update` / `updateDoc` on a document known to exist; a missing
id leaves the collection unchanged). -/
def updateDocIn (l : List (String × α)) (k : String) (f : α → α) :
    List (String × α) :=
  match l with
  | [] => []
  | (k', v) :: rest =>
      if k' = k then (k', f v) :: rest else (k', v) :: updateDocIn rest k f

/-- Write a document under the given id, overwriting an existing one and
appending otherwise (models `transaction.set` / `setDoc`). -/
def setDocIn (l : List (String × α)) (k : String) (v : α) :
    List (String × α) :=
  match l with
  | [] => [(k, v)]
  | (k', w) :: rest =>
      if k' = k then (k', v) :: rest else (k', w) :: setDocIn rest k v

/-- Remove the document with the given id (models `deleteDoc`; Firestore
ids are unique, so removing every pair with this key removes the one
document). -/
def deleteDocIn (l : List (String × α)) (k : String) : List (String × α) :=
  l.filter (fun p => decide (p.1 ≠ k))

/-- The `catch` blocks of borrowBook/returnBook rethrow
`new Error(error.message || fallback)`: the original message when it is
truthy (non-empty), the generic fallback otherwise. -/
def rethrow (fallback : String) (e : JsError) : JsError :=
  if e.message = "" then { message := fallback } else e

/-- The field update `transaction.update(bookRef, status BORROWED,
updatedAt serverTimestamp)` applied by borrowBook. -/
def markBorrowed (now : Nat) (b : BookDoc) : BookDoc :=
  { b with status := BookStatus.BORROWED, updatedAt := some now }

/-- The field update `transaction.update(bookRef, status AVAILABLE,
updatedAt serverTimestamp)` applied by returnBook. -/
def markAvailable (now : Nat) (b : BookDoc) : BookDoc :=
  { b with status := BookStatus.AVAILABLE, updatedAt := some now }

/-- The field update `transaction.update(transactionRef, status RETURNED,
returnDate serverTimestamp)` applied by returnBook. -/
def markReturned (now : Nat) (t : TransactionDoc) : TransactionDoc :=
  { t with status := TxStatus.RETURNED, returnDate := some now }

/-- The `transactionData` document created by borrowBook: a fresh loan
entry with denormalized book title and borrower name. -/
def newLoanEntry (bookId : String) (user : User) (bookData : BookDoc)
    (now : Nat) : TransactionDoc :=
  { bookId := bookId
    userId := user.uid
    borrowDate := now
    returnDate := none
    status := TxStatus.BORROWED
    bookTitle := some bookData.title
    userName := some user.name }

/-- The `runTransaction` callback of `borrowBook` (source lines 723-764):
read the book; missing book or status BORROWED aborts with the
corresponding message; otherwise update the book to BORROWED with a fresh
`updatedAt` and `set` a new transaction document, returning its id. -/
def borrowTxnBody (db : DB) (bookId : String) (user : User)
    (newTxId : String) (now : Nat) : Except JsError (DB × String) :=
  match findDoc db.books bookId with
  | none => .error { message := "Buku tidak ditemukan." }
  | some bookData =>
      if bookData.status = BookStatus.BORROWED then
        .error { message := "Buku sedang dipinjam." }
      else
        let books' := updateDocIn db.books bookId (markBorrowed now)
        let txs' := setDocIn db.txs newTxId (newLoanEntry bookId user bookData now)
        .ok ({ books := books', txs := txs' }, newTxId)

/-- `borrowBook` (source lines 717-774): run the transaction body; on
success return the `BorrowBookResponse`, on a thrown error rethrow it via
the catch block.  An aborted transaction writes nothing, so the returned
store is the input store on error. -/
def borrowBook (db : DB) (bookId : String) (user : User)
    (newTxId : String) (now : Nat) :
    Except JsError BorrowBookResponse × DB :=
  match borrowTxnBody db bookId user newTxId now with
  | .ok (db', result) =>
      (.ok { transactionId := result, message := "Buku berhasil dipinjam!" },
       db')
  | .error e =>
      (.error (rethrow "Gagal meminjam buku. Silakan coba lagi." e), db)

/-- `borrowBook` with the possibility that `runTransaction` itself rejects
with a store-level error (contention, connectivity): the rejection reaches
the same catch block and is rethrown; nothing was committed. -/
def borrowBookWith (storeFailure : Option JsError) (db : DB)
    (bookId : String) (user : User) (newTxId : String) (now : Nat) :
    Except JsError BorrowBookResponse × DB :=
  match storeFailure with
  | some e =>
      (.error (rethrow "Gagal meminjam buku. Silakan coba lagi." e), db)
  | none => borrowBook db bookId user newTxId now

/-- The `runTransaction` callback of `returnBook` (source lines 787-823):
read the transaction; missing or already RETURNED aborts; read the book;
missing book aborts; otherwise update the book to AVAILABLE and the
transaction to RETURNED with a return date. -/
def returnTxnBody (db : DB) (transactionId : String) (now : Nat) :
    Except JsError DB :=
  match findDoc db.txs transactionId with
  | none => .error { message := "Transaksi tidak ditemukan." }
  | some transactionData =>
      if transactionData.status = TxStatus.RETURNED then
        .error { message := "Buku sudah dikembalikan sebelumnya." }
      else
        match findDoc db.books transactionData.bookId with
        | none => .error { message := "Buku tidak ditemukan." }
        | some _ =>
            let books' :=
              updateDocIn db.books transactionData.bookId (markAvailable now)
            let txs' := updateDocIn db.txs transactionId (markReturned now)
            .ok { books := books', txs := txs' }

/-- `returnBook` (source lines 785-833). -/
def returnBook (db : DB) (transactionId : String) (now : Nat) :
    Except JsError ReturnBookResponse × DB :=
  match returnTxnBody db transactionId now with
  | .ok db' =>
      (.ok { transactionId := transactionId,
             message := "Buku berhasil dikembalikan!" },
       db')
  | .error e =>
      (.error (rethrow "Gagal mengembalikan buku. Silakan coba lagi." e), db)

/-- `returnBook` with a possible store-level rejection of
`runTransaction`, analogous to `borrowBookWith`. -/
def returnBookWith (storeFailure : Option JsError) (db : DB)
    (transactionId : String) (now : Nat) :
    Except JsError ReturnBookResponse × DB :=
  match storeFailure with
  | some e =>
      (.error (rethrow "Gagal mengembalikan buku. Silakan coba lagi." e), db)
  | none => returnBook db transactionId now

/-- The book-data argument of `addBook`:
`Omit<BookDoc, 'coverUrl' | 'status' | 'createdAt' | 'updatedAt'>`. -/
structure AddBookData where
  title : String
  author : String
  description : Option String
  isbn : Option String
  deriving DecidableEq, Repr

/-- The `bookDoc` document built by addBook: status AVAILABLE, server
timestamps, description/isbn included only when present and non-empty. -/
def mkBookDoc (data : AddBookData) (coverUrl : String) (now : Nat) :
    BookDoc :=
  { title := data.title
    author := data.author
    coverUrl := coverUrl
    status := BookStatus.AVAILABLE
    description :=
      match data.description with
      | some d => if d = "" then none else some d
      | none => none
    isbn :=
      match data.isbn with
      | some i => if i = "" then none else some i
      | none => none
    createdAt := some now
    updatedAt := some now }

/-- `addBook` (source lines 587-628): build `bookDoc` and `addDoc` it
under a store-generated fresh id (`newId`; `coverUrl` is the result of
the optional cover upload, the empty string when no cover was given). -/
def addBook (db : DB) (data : AddBookData) (coverUrl : String)
    (newId : String) (now : Nat) : Except JsError String × DB :=
  (.ok newId,
   { db with books := setDocIn db.books newId (mkBookDoc data coverUrl now) })

/-- `deleteBook` (source lines 673-690): read the book (only to delete its
cover image, an external-storage effect outside the model) and delete the
document; there is no status check of any kind. -/
def deleteBook (db : DB) (bookId : String) : Except JsError Unit × DB :=
  (.ok (), { db with books := deleteDocIn db.books bookId })

/-- The three `where` clauses of the `hasUserBorrowedBook` query: userId,
bookId and status BORROWED all match. -/
def matchesBorrowQuery (userId bookId : String)
    (p : String × TransactionDoc) : Bool :=
  decide (p.2.userId = userId) && decide (p.2.bookId = bookId) &&
    decide (p.2.status = TxStatus.BORROWED)

/-- `hasUserBorrowedBook` (source lines 912-932): query the transactions
with the given userId, bookId and status BORROWED and report whether the
result set is non-empty; the catch block turns any query failure into
`false`. -/
def hasUserBorrowedBook (db : DB) (userId : String) (bookId : String)
    (queryFailure : Option JsError) : Bool :=
  match queryFailure with
  | some _ => false
  | none =>
      let results := db.txs.filter (matchesBorrowQuery userId bookId)
      !results.isEmpty

/-- The spec's closed error taxonomy (section 7). -/
inductive ErrorClass where
  | NotFound
  | Conflict
  | TransientFailure
  deriving DecidableEq, Repr

/-- Modelled from the spec: the correspondence between the four fixed
error messages the operations throw and the spec's taxonomy (missing book
or transaction are NotFound; failed availability / terminal-state
preconditions are Conflict).  Any other message belongs to no class. -/
def classifyMessage (m : String) : Option ErrorClass :=
  if m = "Buku tidak ditemukan." then some ErrorClass.NotFound
  else if m = "Transaksi tidak ditemukan." then some ErrorClass.NotFound
  else if m = "Buku sedang dipinjam." then some ErrorClass.Conflict
  else if m = "Buku sudah dikembalikan sebelumnya." then some ErrorClass.Conflict
  else none

/-- Does a transaction-list entry record an open (BORROWED) loan of the
given book? -/
def isOpenLoanFor (bookId : String) (p : String × TransactionDoc) : Bool :=
  decide (p.2.bookId = bookId) && decide (p.2.status = TxStatus.BORROWED)

/-- Number of loan entries with status BORROWED referencing the given
book. -/
def countBorrowedFor (txs : List (String × TransactionDoc))
    (bookId : String) : Nat :=
  txs.countP (isOpenLoanFor bookId)

/-- The invariant as the spec states it: an existing book has status
BORROWED iff exactly one BORROWED loan entry references it. -/
def BookLoanInv (db : DB) : Prop :=
  ∀ id b, findDoc db.books id = some b →
    (b.status = BookStatus.BORROWED ↔ countBorrowedFor db.txs id = 1)

/-- The strengthened (inductive) invariant: a BORROWED book has exactly
one open loan entry, an AVAILABLE book has none. -/
def StrongLoanInv (db : DB) : Prop :=
  ∀ id b, findDoc db.books id = some b →
    countBorrowedFor db.txs id =
      (if b.status = BookStatus.BORROWED then 1 else 0)

/-- One execution of addBook, borrowBook or returnBook against the store
(failing executions included: an aborted transaction leaves the store as
it was).  Store-generated ids are fresh: an `addDoc`/`doc(ref)` id never
collides with an existing document, nor (being 120 random bits) with any
book id recorded in a loan entry. -/
inductive LoanStep : DB → DB → Prop where
  | add (db : DB) (data : AddBookData) (coverUrl newId : String) (now : Nat)
      (hfresh : findDoc db.books newId = none)
      (hnoref : ∀ p ∈ db.txs, (p : String × TransactionDoc).2.bookId ≠ newId) :
      LoanStep db (addBook db data coverUrl newId now).2
  | borrow (db : DB) (bookId : String) (user : User) (newTxId : String)
      (now : Nat) (hfresh : findDoc db.txs newTxId = none) :
      LoanStep db (borrowBook db bookId user newTxId now).2
  | ret (db : DB) (transactionId : String) (now : Nat) :
      LoanStep db (returnBook db transactionId now).2

/-! Concrete sample documents and stores, used to instantiate theorems at
explicit inputs. -/

/-- A sample member. -/
def sampleUser : User :=
  { uid := "u1", email := "u1@mail.test", role := Role.member, name := "Udin" }

/-- A second sample member. -/
def sampleUser2 : User :=
  { uid := "u2", email := "u2@mail.test", role := Role.member, name := "Wati" }

/-- A sample available book document. -/
def sampleBookAvailable : BookDoc :=
  { title := "Laskar Pelangi", author := "Andrea Hirata", coverUrl := "",
    status := BookStatus.AVAILABLE, description := none, isbn := none,
    createdAt := some 0, updatedAt := some 0 }

/-- The same book, borrowed. -/
def sampleBookBorrowed : BookDoc :=
  { sampleBookAvailable with status := BookStatus.BORROWED }

/-- An open loan of book b1 by user u1. -/
def sampleOpenLoan : TransactionDoc :=
  { bookId := "b1", userId := "u1", borrowDate := 1, returnDate := none,
    status := TxStatus.BORROWED, bookTitle := some "Laskar Pelangi",
    userName := some "Udin" }

/-- The same loan, returned. -/
def sampleReturnedLoan : TransactionDoc :=
  { sampleOpenLoan with status := TxStatus.RETURNED, returnDate := some 2 }

/-- Sample input data for addBook. -/
def sampleAddData : AddBookData :=
  { title := "Bumi Manusia", author := "Pramoedya Ananta Toer",
    description := none, isbn := none }

/-- A store with one available book and no loans. -/
def dbAvail : DB := { books := [("b1", sampleBookAvailable)], txs := [] }

/-- A store with one borrowed book and its open loan entry. -/
def dbBorrowed : DB :=
  { books := [("b1", sampleBookBorrowed)], txs := [("t1", sampleOpenLoan)] }

/-- A store with a returned loan entry for the available book. -/
def dbReturned : DB :=
  { books := [("b1", sampleBookAvailable)], txs := [("t1", sampleReturnedLoan)] }

/-- A store with an open loan entry whose book no longer exists. -/
def dbDangling : DB := { books := [], txs := [("t1", sampleOpenLoan)] }

/-- A second open loan of book b1, held by user u2. -/
def sampleOpenLoan2 : TransactionDoc :=
  { sampleOpenLoan with userId := "u2", userName := some "Wati" }

/-- A store satisfying the spec's literal invariant (BORROWED iff exactly
one open loan) while an AVAILABLE book has two open loan entries: the
"exactly one" side is false, so the iff holds vacuously. -/
def dbTwoLoans : DB :=
  { books := [("b1", sampleBookAvailable)],
    txs := [("t1", sampleOpenLoan), ("t2", sampleOpenLoan2)] }

/-- A sample store-level failure as the Firestore SDK raises it: an Error
whose message carries the provider's own wording. -/
def storeErr : JsError :=
  { message := "FirebaseError: Failed to get document because the client is offline." }

/-! Association-list lemmas about the store primitives. -/

theorem findDoc_updateDocIn_self (l : List (String × α)) (k : String)
    (f : α → α) : findDoc (updateDocIn l k f) k = (findDoc l k).map f := by
  induction l with
  | nil => simp [findDoc, updateDocIn]
  | cons p rest ih =>
      obtain ⟨k', v⟩ := p
      by_cases h : k' = k
      · simp [findDoc, updateDocIn, h]
      · simp [findDoc, updateDocIn, h, ih]

theorem findDoc_updateDocIn_ne (l : List (String × α)) (k k' : String)
    (f : α → α) (hne : k' ≠ k) :
    findDoc (updateDocIn l k' f) k = findDoc l k := by
  induction l with
  | nil => simp [findDoc, updateDocIn]
  | cons p rest ih =>
      obtain ⟨k₀, v⟩ := p
      by_cases h : k₀ = k'
      · subst h
        simp [findDoc, updateDocIn, hne]
      · by_cases h2 : k₀ = k
        · simp [findDoc, updateDocIn, h, h2, Ne.symm hne]
        · simp [findDoc, updateDocIn, h, h2, ih]

theorem setDocIn_eq_append (l : List (String × α)) (k : String) (v : α)
    (h : findDoc l k = none) : setDocIn l k v = l ++ [(k, v)] := by
  induction l with
  | nil => simp [setDocIn]
  | cons p rest ih =>
      obtain ⟨k₀, w⟩ := p
      by_cases hk : k₀ = k
      · simp [findDoc, hk] at h
      · simp [findDoc, hk] at h
        simp [setDocIn, hk, ih h]

theorem findDoc_append_left (l₁ l₂ : List (String × α)) (k : String) (v : α)
    (h : findDoc l₁ k = some v) : findDoc (l₁ ++ l₂) k = some v := by
  induction l₁ with
  | nil => simp [findDoc] at h
  | cons p rest ih =>
      obtain ⟨k₀, w⟩ := p
      by_cases hk : k₀ = k
      · simp [findDoc, hk] at h
        simp [findDoc, hk, h]
      · simp [findDoc, hk] at h
        simp [findDoc, hk, ih h]

theorem findDoc_append_right (l₁ l₂ : List (String × α)) (k : String)
    (h : findDoc l₁ k = none) : findDoc (l₁ ++ l₂) k = findDoc l₂ k := by
  induction l₁ with
  | nil => simp [findDoc]
  | cons p rest ih =>
      obtain ⟨k₀, w⟩ := p
      by_cases hk : k₀ = k
      · simp [findDoc, hk] at h
      · simp [findDoc, hk] at h
        simp [findDoc, hk, ih h]

theorem updateDocIn_append_left_none (l₁ l₂ : List (String × α)) (k : String)
    (f : α → α) (h : findDoc l₁ k = none) :
    updateDocIn (l₁ ++ l₂) k f = l₁ ++ updateDocIn l₂ k f := by
  induction l₁ with
  | nil => simp
  | cons p rest ih =>
      obtain ⟨k₀, w⟩ := p
      by_cases hk : k₀ = k
      · simp [findDoc, hk] at h
      · simp [findDoc, hk] at h
        simp [updateDocIn, hk, ih h]

theorem findDoc_split (l : List (String × α)) (k : String) (v : α)
    (h : findDoc l k = some v) :
    ∃ l₁ l₂, l = l₁ ++ (k, v) :: l₂ ∧ findDoc l₁ k = none := by
  induction l with
  | nil => simp [findDoc] at h
  | cons p rest ih =>
      obtain ⟨k₀, w⟩ := p
      by_cases hk : k₀ = k
      · subst hk
        simp [findDoc] at h
        subst h
        exact ⟨[], rest, by simp, by simp [findDoc]⟩
      · simp [findDoc, hk] at h
        obtain ⟨l₁, l₂, heq, hnone⟩ := ih h
        exact ⟨(k₀, w) :: l₁, l₂, by simp [heq], by simp [findDoc, hk, hnone]⟩

theorem updateDocIn_append_cons (l₁ l₂ : List (String × α)) (k : String)
    (v : α) (f : α → α) (h : findDoc l₁ k = none) :
    updateDocIn (l₁ ++ (k, v) :: l₂) k f = l₁ ++ (k, f v) :: l₂ := by
  rw [updateDocIn_append_left_none l₁ ((k, v) :: l₂) k f h]
  simp [updateDocIn]

theorem findDoc_deleteDocIn_self (l : List (String × α)) (k : String) :
    findDoc (deleteDocIn l k) k = none := by
  induction l with
  | nil => simp [deleteDocIn, findDoc]
  | cons p rest ih =>
      obtain ⟨k₀, w⟩ := p
      by_cases hk : k₀ = k
      · simpa [deleteDocIn, hk] using ih
      · simpa [deleteDocIn, findDoc, hk] using ih

theorem findDoc_deleteDocIn_ne (l : List (String × α)) (k k' : String)
    (hne : k' ≠ k) : findDoc (deleteDocIn l k') k = findDoc l k := by
  induction l with
  | nil => simp [deleteDocIn, findDoc]
  | cons p rest ih =>
      obtain ⟨k₀, w⟩ := p
      by_cases hk : k₀ = k'
      · subst hk
        simpa [deleteDocIn, findDoc, hne] using ih
      · by_cases h2 : k₀ = k
        · simp [deleteDocIn, findDoc, hk, h2, Ne.symm hne]
        · simpa [deleteDocIn, findDoc, hk, h2] using ih

/-! Counting lemmas for open loan entries. -/

theorem countBorrowedFor_append (l₁ l₂ : List (String × TransactionDoc))
    (bookId : String) :
    countBorrowedFor (l₁ ++ l₂) bookId =
      countBorrowedFor l₁ bookId + countBorrowedFor l₂ bookId := by
  simp [countBorrowedFor, List.countP_append]

theorem countBorrowedFor_cons (p : String × TransactionDoc)
    (l : List (String × TransactionDoc)) (bookId : String) :
    countBorrowedFor (p :: l) bookId =
      countBorrowedFor l bookId +
        (if isOpenLoanFor bookId p then 1 else 0) := by
  simp [countBorrowedFor, List.countP_cons]

theorem countBorrowedFor_eq_zero_of_noref
    (l : List (String × TransactionDoc)) (bookId : String)
    (h : ∀ p ∈ l, (p : String × TransactionDoc).2.bookId ≠ bookId) :
    countBorrowedFor l bookId = 0 := by
  apply List.countP_eq_zero.mpr
  intro p hp
  simp [isOpenLoanFor, h p hp]

/-- A loan entry that is not RETURNED is BORROWED: the status type has
only those two values. -/
theorem txStatus_borrowed_of_not_returned (t : TransactionDoc)
    (h : t.status ≠ TxStatus.RETURNED) : t.status = TxStatus.BORROWED := by
  cases hs : t.status
  · rfl
  · exact absurd hs h

/-! Execution-shape lemmas for the four store operations. -/

theorem borrowBook_notFound (db : DB) (bookId : String) (user : User)
    (newTxId : String) (now : Nat) (h : findDoc db.books bookId = none) :
    borrowBook db bookId user newTxId now =
      (.error { message := "Buku tidak ditemukan." }, db) := by
  simp [borrowBook, borrowTxnBody, h, rethrow]

theorem borrowBook_conflict (db : DB) (bookId : String) (b : BookDoc)
    (user : User) (newTxId : String) (now : Nat)
    (hb : findDoc db.books bookId = some b)
    (hst : b.status = BookStatus.BORROWED) :
    borrowBook db bookId user newTxId now =
      (.error { message := "Buku sedang dipinjam." }, db) := by
  simp [borrowBook, borrowTxnBody, hb, hst, rethrow]

theorem borrowBook_success (db : DB) (bookId : String) (b : BookDoc)
    (user : User) (newTxId : String) (now : Nat)
    (hb : findDoc db.books bookId = some b)
    (hst : b.status ≠ BookStatus.BORROWED) :
    borrowBook db bookId user newTxId now =
      (.ok { transactionId := newTxId, message := "Buku berhasil dipinjam!" },
       { books := updateDocIn db.books bookId (markBorrowed now),
         txs := setDocIn db.txs newTxId (newLoanEntry bookId user b now) }) := by
  simp [borrowBook, borrowTxnBody, hb, hst]

theorem returnBook_txMissing (db : DB) (transactionId : String) (now : Nat)
    (h : findDoc db.txs transactionId = none) :
    returnBook db transactionId now =
      (.error { message := "Transaksi tidak ditemukan." }, db) := by
  simp [returnBook, returnTxnBody, h, rethrow]

theorem returnBook_alreadyReturned (db : DB) (transactionId : String)
    (t : TransactionDoc) (now : Nat)
    (ht : findDoc db.txs transactionId = some t)
    (hst : t.status = TxStatus.RETURNED) :
    returnBook db transactionId now =
      (.error { message := "Buku sudah dikembalikan sebelumnya." }, db) := by
  simp [returnBook, returnTxnBody, ht, hst, rethrow]

theorem returnBook_bookMissing (db : DB) (transactionId : String)
    (t : TransactionDoc) (now : Nat)
    (ht : findDoc db.txs transactionId = some t)
    (hst : t.status ≠ TxStatus.RETURNED)
    (hb : findDoc db.books t.bookId = none) :
    returnBook db transactionId now =
      (.error { message := "Buku tidak ditemukan." }, db) := by
  simp [returnBook, returnTxnBody, ht, hst, hb, rethrow]

theorem returnBook_success (db : DB) (transactionId : String)
    (t : TransactionDoc) (b : BookDoc) (now : Nat)
    (ht : findDoc db.txs transactionId = some t)
    (hst : t.status ≠ TxStatus.RETURNED)
    (hb : findDoc db.books t.bookId = some b) :
    returnBook db transactionId now =
      (.ok { transactionId := transactionId,
             message := "Buku berhasil dikembalikan!" },
       { books := updateDocIn db.books t.bookId (markAvailable now),
         txs := updateDocIn db.txs transactionId (markReturned now) }) := by
  simp [returnBook, returnTxnBody, ht, hst, hb]

/-! Claim theorems. -/

/-- C6: Borrow on a bookId that refers to no existing book fails with the
NotFound error ("Buku tidak ditemukan.") and leaves the store unchanged:
no book is modified and no loan entry is created. -/
theorem borrow_missing_book_notFound (db : DB) (bookId : String)
    (user : User) (newTxId : String) (now : Nat)
    (h : findDoc db.books bookId = none) :
    borrowBook db bookId user newTxId now =
      (.error { message := "Buku tidak ditemukan." }, db) ∧
    classifyMessage "Buku tidak ditemukan." = some ErrorClass.NotFound :=
  ⟨borrowBook_notFound db bookId user newTxId now h, rfl⟩

/-- C6 witness: borrowing a nonexistent book from the empty store. -/
theorem borrow_missing_book_notFound_witness :
    borrowBook emptyDB "b1" sampleUser "t1" 0 =
      (.error { message := "Buku tidak ditemukan." }, emptyDB) ∧
    classifyMessage "Buku tidak ditemukan." = some ErrorClass.NotFound :=
  borrow_missing_book_notFound emptyDB "b1" sampleUser "t1" 0 rfl

/-- C2: Borrow on a book whose status is BORROWED fails with the Conflict
error ("Buku sedang dipinjam.") and leaves the store unchanged; starting
from an AVAILABLE book, two serialized Borrow calls yield exactly one
success and one Conflict failure. -/
theorem borrow_borrowed_conflict (db : DB) (bookId : String) (b : BookDoc)
    (user1 user2 : User) (id1 id2 : String) (t1 t2 : Nat)
    (hb : findDoc db.books bookId = some b) :
    (b.status = BookStatus.BORROWED →
      borrowBook db bookId user1 id1 t1 =
        (.error { message := "Buku sedang dipinjam." }, db) ∧
      classifyMessage "Buku sedang dipinjam." = some ErrorClass.Conflict) ∧
    (b.status = BookStatus.AVAILABLE →
      ∃ db1 resp, borrowBook db bookId user1 id1 t1 = (.ok resp, db1) ∧
        borrowBook db1 bookId user2 id2 t2 =
          (.error { message := "Buku sedang dipinjam." }, db1)) := by
  constructor
  · intro hst
    exact ⟨borrowBook_conflict db bookId b user1 id1 t1 hb hst, rfl⟩
  · intro hst
    have hne : b.status ≠ BookStatus.BORROWED := by simp [hst]
    refine ⟨_, _, borrowBook_success db bookId b user1 id1 t1 hb hne,
      borrowBook_conflict _ bookId (markBorrowed t1 b) user2 id2 t2 ?_ rfl⟩
    show findDoc (updateDocIn db.books bookId (markBorrowed t1)) bookId = _
    rw [findDoc_updateDocIn_self, hb]
    rfl

/-- C2 witness: the second borrow of the sample book conflicts. -/
theorem borrow_borrowed_conflict_witness :
    borrowBook dbBorrowed "b1" sampleUser2 "t2" 2 =
      (.error { message := "Buku sedang dipinjam." }, dbBorrowed) ∧
    classifyMessage "Buku sedang dipinjam." = some ErrorClass.Conflict :=
  (borrow_borrowed_conflict dbBorrowed "b1" sampleBookBorrowed sampleUser2
    sampleUser "t2" "t3" 2 3 rfl).1 rfl

/-- C5: a successful Borrow of an existing AVAILABLE book sets its status
to BORROWED with a refreshed updatedAt, creates exactly one new loan
entry (status BORROWED, returnDate none, borrowDate now, denormalized
title and borrower name), returns the new entry's id, and modifies no
other document. -/
theorem borrow_success_effects (db : DB) (bookId : String) (b : BookDoc)
    (user : User) (newTxId : String) (now : Nat)
    (hb : findDoc db.books bookId = some b)
    (hav : b.status = BookStatus.AVAILABLE)
    (hfresh : findDoc db.txs newTxId = none) :
    ∃ db', borrowBook db bookId user newTxId now =
        (.ok { transactionId := newTxId,
               message := "Buku berhasil dipinjam!" }, db') ∧
      findDoc db'.books bookId = some (markBorrowed now b) ∧
      (markBorrowed now b).status = BookStatus.BORROWED ∧
      (markBorrowed now b).updatedAt = some now ∧
      (∀ id, id ≠ bookId → findDoc db'.books id = findDoc db.books id) ∧
      db'.txs = db.txs ++ [(newTxId, newLoanEntry bookId user b now)] ∧
      newLoanEntry bookId user b now =
        { bookId := bookId, userId := user.uid, borrowDate := now,
          returnDate := none, status := TxStatus.BORROWED,
          bookTitle := some b.title, userName := some user.name } := by
  have hne : b.status ≠ BookStatus.BORROWED := by simp [hav]
  refine ⟨_, borrowBook_success db bookId b user newTxId now hb hne,
    ?_, rfl, rfl, ?_, ?_, rfl⟩
  · show findDoc (updateDocIn db.books bookId (markBorrowed now)) bookId = _
    rw [findDoc_updateDocIn_self, hb]
    rfl
  · intro id hid
    exact findDoc_updateDocIn_ne db.books id bookId (markBorrowed now)
      (Ne.symm hid)
  · exact setDocIn_eq_append db.txs newTxId _ hfresh

/-- C5 witness: borrowing the sample available book. -/
theorem borrow_success_effects_witness :
    ∃ db', borrowBook dbAvail "b1" sampleUser "t1" 1 =
        (.ok { transactionId := "t1",
               message := "Buku berhasil dipinjam!" }, db') ∧
      findDoc db'.books "b1" = some (markBorrowed 1 sampleBookAvailable) ∧
      (markBorrowed 1 sampleBookAvailable).status = BookStatus.BORROWED ∧
      (markBorrowed 1 sampleBookAvailable).updatedAt = some 1 ∧
      (∀ id, id ≠ "b1" → findDoc db'.books id = findDoc dbAvail.books id) ∧
      db'.txs = dbAvail.txs ++
        [("t1", newLoanEntry "b1" sampleUser sampleBookAvailable 1)] ∧
      newLoanEntry "b1" sampleUser sampleBookAvailable 1 =
        { bookId := "b1", userId := sampleUser.uid, borrowDate := 1,
          returnDate := none, status := TxStatus.BORROWED,
          bookTitle := some sampleBookAvailable.title,
          userName := some sampleUser.name } :=
  borrow_success_effects dbAvail "b1" sampleBookAvailable sampleUser "t1" 1
    rfl rfl rfl

/-- C7: Return on a BORROWED loan entry whose referenced book no longer
exists fails with the NotFound error and leaves the whole store — in
particular the loan entry — unchanged; no partial write happens because
the transaction aborts before any write. -/
theorem return_missing_book_notFound (db : DB) (transactionId : String)
    (t : TransactionDoc) (now : Nat)
    (ht : findDoc db.txs transactionId = some t)
    (hst : t.status = TxStatus.BORROWED)
    (hb : findDoc db.books t.bookId = none) :
    returnBook db transactionId now =
      (.error { message := "Buku tidak ditemukan." }, db) ∧
    classifyMessage "Buku tidak ditemukan." = some ErrorClass.NotFound := by
  have hne : t.status ≠ TxStatus.RETURNED := by simp [hst]
  exact ⟨returnBook_bookMissing db transactionId t now ht hne hb, rfl⟩

/-- C7 witness: returning the dangling sample loan. -/
theorem return_missing_book_notFound_witness :
    returnBook dbDangling "t1" 3 =
      (.error { message := "Buku tidak ditemukan." }, dbDangling) ∧
    classifyMessage "Buku tidak ditemukan." = some ErrorClass.NotFound :=
  return_missing_book_notFound dbDangling "t1" sampleOpenLoan 3 rfl rfl rfl

/-- C9: deleteBook checks no precondition on the book's status: it
succeeds on any existing book (including a BORROWED one with an open loan
entry), removes the book document, leaves every loan entry untouched, and
leaves every other book unchanged. -/
theorem deleteBook_no_precondition (db : DB) (bookId : String) (b : BookDoc)
    (_hb : findDoc db.books bookId = some b) :
    ∃ db', deleteBook db bookId = (.ok (), db') ∧
      findDoc db'.books bookId = none ∧
      db'.txs = db.txs ∧
      (∀ id, id ≠ bookId → findDoc db'.books id = findDoc db.books id) := by
  refine ⟨_, rfl, findDoc_deleteDocIn_self db.books bookId, rfl, ?_⟩
  intro id hid
  exact findDoc_deleteDocIn_ne db.books id bookId (Ne.symm hid)

/-- C9 witness: deleting the borrowed sample book, whose open loan entry
survives and keeps status BORROWED. -/
theorem deleteBook_no_precondition_witness :
    (∃ db', deleteBook dbBorrowed "b1" = (.ok (), db') ∧
      findDoc db'.books "b1" = none ∧
      db'.txs = dbBorrowed.txs ∧
      (∀ id, id ≠ "b1" → findDoc db'.books id = findDoc dbBorrowed.books id)) ∧
    sampleBookBorrowed.status = BookStatus.BORROWED ∧
    findDoc dbBorrowed.txs "t1" = some sampleOpenLoan ∧
    sampleOpenLoan.status = TxStatus.BORROWED :=
  ⟨deleteBook_no_precondition dbBorrowed "b1" sampleBookBorrowed rfl,
    rfl, rfl, rfl⟩

/-- C3: Return on a loan entry whose status is RETURNED fails with the
Conflict error ("Buku sudah dikembalikan sebelumnya.") and leaves the
whole store unchanged; moreover no operation of the repository (addBook,
borrowBook, returnBook, deleteBook) ever changes the fields of a RETURNED
entry again, so RETURNED is terminal. -/
theorem return_terminal_state (db : DB) (tid : String) (t : TransactionDoc)
    (now : Nat) (ht : findDoc db.txs tid = some t)
    (hst : t.status = TxStatus.RETURNED) :
    returnBook db tid now =
      (.error { message := "Buku sudah dikembalikan sebelumnya." }, db) ∧
    classifyMessage "Buku sudah dikembalikan sebelumnya." =
      some ErrorClass.Conflict ∧
    (∀ db', LoanStep db db' → findDoc db'.txs tid = some t) ∧
    (∀ bookId, findDoc (deleteBook db bookId).2.txs tid = some t) := by
  refine ⟨returnBook_alreadyReturned db tid t now ht hst, rfl, ?_,
    fun bookId => ht⟩
  intro db' hstep
  cases hstep with
  | add data coverUrl newId now' hfresh hnoref => exact ht
  | borrow bookId user newTxId now' hfresh =>
      cases hfb : findDoc db.books bookId with
      | none =>
          rw [borrowBook_notFound db bookId user newTxId now' hfb]
          exact ht
      | some b0 =>
          by_cases hbs : b0.status = BookStatus.BORROWED
          · rw [borrowBook_conflict db bookId b0 user newTxId now' hfb hbs]
            exact ht
          · rw [borrowBook_success db bookId b0 user newTxId now' hfb hbs]
            show findDoc (setDocIn db.txs newTxId _) tid = some t
            rw [setDocIn_eq_append db.txs newTxId _ hfresh]
            exact findDoc_append_left db.txs _ tid t ht
  | ret tid' now' =>
      cases hft : findDoc db.txs tid' with
      | none =>
          rw [returnBook_txMissing db tid' now' hft]
          exact ht
      | some t' =>
          by_cases hrs : t'.status = TxStatus.RETURNED
          · rw [returnBook_alreadyReturned db tid' t' now' hft hrs]
            exact ht
          · cases hfb : findDoc db.books t'.bookId with
            | none =>
                rw [returnBook_bookMissing db tid' t' now' hft hrs hfb]
                exact ht
            | some b0 =>
                rw [returnBook_success db tid' t' b0 now' hft hrs hfb]
                show findDoc (updateDocIn db.txs tid' (markReturned now')) tid
                  = some t
                by_cases hid : tid' = tid
                · subst hid
                  rw [ht] at hft
                  injection hft with heq
                  rw [heq] at hst
                  exact absurd hst hrs
                · rw [findDoc_updateDocIn_ne db.txs tid tid'
                    (markReturned now') hid]
                  exact ht

/-- C3 witness: returning the already-returned sample loan, then checking
the entry survives a borrow step and a delete step. -/
theorem return_terminal_state_witness :
    returnBook dbReturned "t1" 5 =
      (.error { message := "Buku sudah dikembalikan sebelumnya." },
       dbReturned) ∧
    classifyMessage "Buku sudah dikembalikan sebelumnya." =
      some ErrorClass.Conflict ∧
    (∀ db', LoanStep dbReturned db' →
      findDoc db'.txs "t1" = some sampleReturnedLoan) ∧
    (∀ bookId, findDoc (deleteBook dbReturned bookId).2.txs "t1" =
      some sampleReturnedLoan) :=
  return_terminal_state dbReturned "t1" sampleReturnedLoan 5 rfl rfl

/-- C4: on an existing AVAILABLE book, Borrow followed by Return of the
loan id it produced succeeds, restores the book to AVAILABLE, leaves every
other book unchanged, and appends exactly one loan entry for the book,
with status RETURNED and a non-null returnDate. -/
theorem borrow_return_round_trip (db : DB) (bookId : String) (b : BookDoc)
    (user : User) (newTxId : String) (t1 t2 : Nat)
    (hb : findDoc db.books bookId = some b)
    (hav : b.status = BookStatus.AVAILABLE)
    (hfresh : findDoc db.txs newTxId = none) :
    ∃ db1 db2,
      borrowBook db bookId user newTxId t1 =
        (.ok { transactionId := newTxId,
               message := "Buku berhasil dipinjam!" }, db1) ∧
      returnBook db1 newTxId t2 =
        (.ok { transactionId := newTxId,
               message := "Buku berhasil dikembalikan!" }, db2) ∧
      findDoc db2.books bookId =
        some (markAvailable t2 (markBorrowed t1 b)) ∧
      (markAvailable t2 (markBorrowed t1 b)).status = BookStatus.AVAILABLE ∧
      (∀ id, id ≠ bookId → findDoc db2.books id = findDoc db.books id) ∧
      db2.txs = db.txs ++
        [(newTxId, markReturned t2 (newLoanEntry bookId user b t1))] ∧
      (markReturned t2 (newLoanEntry bookId user b t1)).status =
        TxStatus.RETURNED ∧
      (markReturned t2 (newLoanEntry bookId user b t1)).returnDate =
        some t2 := by
  have hne : b.status ≠ BookStatus.BORROWED := by simp [hav]
  have hb1 : findDoc (updateDocIn db.books bookId (markBorrowed t1)) bookId
      = some (markBorrowed t1 b) := by
    rw [findDoc_updateDocIn_self, hb]
    rfl
  have htx1 : findDoc (setDocIn db.txs newTxId
      (newLoanEntry bookId user b t1)) newTxId =
      some (newLoanEntry bookId user b t1) := by
    rw [setDocIn_eq_append db.txs newTxId _ hfresh,
      findDoc_append_right db.txs _ newTxId hfresh]
    simp [findDoc]
  refine ⟨_, _, borrowBook_success db bookId b user newTxId t1 hb hne,
    returnBook_success _ newTxId (newLoanEntry bookId user b t1)
      (markBorrowed t1 b) t2 htx1 (by simp [newLoanEntry]) hb1,
    ?_, rfl, ?_, ?_, rfl, rfl⟩
  · show findDoc (updateDocIn _ (newLoanEntry bookId user b t1).bookId
      (markAvailable t2)) bookId = _
    rw [show (newLoanEntry bookId user b t1).bookId = bookId from rfl,
      findDoc_updateDocIn_self, hb1]
    rfl
  · intro id hid
    show findDoc (updateDocIn _ (newLoanEntry bookId user b t1).bookId
      (markAvailable t2)) id = _
    rw [show (newLoanEntry bookId user b t1).bookId = bookId from rfl,
      findDoc_updateDocIn_ne _ id bookId (markAvailable t2) (Ne.symm hid),
      findDoc_updateDocIn_ne db.books id bookId (markBorrowed t1)
        (Ne.symm hid)]
  · show updateDocIn (setDocIn db.txs newTxId (newLoanEntry bookId user b t1))
      newTxId (markReturned t2) = _
    rw [setDocIn_eq_append db.txs newTxId _ hfresh,
      updateDocIn_append_left_none db.txs _ newTxId (markReturned t2) hfresh]
    simp [updateDocIn]

/-- C4 witness: the round trip on the sample available book. -/
theorem borrow_return_round_trip_witness :
    ∃ db1 db2,
      borrowBook dbAvail "b1" sampleUser "t1" 1 =
        (.ok { transactionId := "t1",
               message := "Buku berhasil dipinjam!" }, db1) ∧
      returnBook db1 "t1" 2 =
        (.ok { transactionId := "t1",
               message := "Buku berhasil dikembalikan!" }, db2) ∧
      findDoc db2.books "b1" =
        some (markAvailable 2 (markBorrowed 1 sampleBookAvailable)) ∧
      (markAvailable 2 (markBorrowed 1 sampleBookAvailable)).status =
        BookStatus.AVAILABLE ∧
      (∀ id, id ≠ "b1" → findDoc db2.books id = findDoc dbAvail.books id) ∧
      db2.txs = dbAvail.txs ++
        [("t1", markReturned 2
          (newLoanEntry "b1" sampleUser sampleBookAvailable 1))] ∧
      (markReturned 2 (newLoanEntry "b1" sampleUser
        sampleBookAvailable 1)).status = TxStatus.RETURNED ∧
      (markReturned 2 (newLoanEntry "b1" sampleUser
        sampleBookAvailable 1)).returnDate = some 2 :=
  borrow_return_round_trip dbAvail "b1" sampleBookAvailable sampleUser "t1"
    1 2 rfl rfl rfl

/-- C10: hasUserBorrowedBook is true exactly when some loan entry with the
given userId and bookId has status BORROWED, and any query failure is
absorbed into the answer false, indistinguishable from not holding the
book. -/
theorem hasUserBorrowedBook_spec (db : DB) (userId bookId : String) :
    (hasUserBorrowedBook db userId bookId none = true ↔
      ∃ tid t, (tid, t) ∈ db.txs ∧ t.userId = userId ∧ t.bookId = bookId ∧
        t.status = TxStatus.BORROWED) ∧
    (∀ e, hasUserBorrowedBook db userId bookId (some e) = false) := by
  constructor
  · constructor
    · intro h
      simp only [hasUserBorrowedBook] at h
      cases hres : db.txs.filter (matchesBorrowQuery userId bookId) with
      | nil =>
          rw [hres] at h
          simp at h
      | cons p rest =>
          have hp : p ∈ db.txs.filter (matchesBorrowQuery userId bookId) := by
            rw [hres]
            exact List.mem_cons_self p rest
          rcases List.mem_filter.mp hp with ⟨hmem, hpred⟩
          simp only [matchesBorrowQuery, Bool.and_eq_true,
            decide_eq_true_eq] at hpred
          exact ⟨p.1, p.2, hmem, hpred.1.1, hpred.1.2, hpred.2⟩
    · rintro ⟨tid, t, hmem, hu, hbk, hs⟩
      simp only [hasUserBorrowedBook]
      have hin : (tid, t) ∈ db.txs.filter (matchesBorrowQuery userId bookId) :=
        List.mem_filter.mpr ⟨hmem, by simp [matchesBorrowQuery, hu, hbk, hs]⟩
      cases hres : db.txs.filter (matchesBorrowQuery userId bookId) with
      | nil =>
          rw [hres] at hin
          exact absurd hin (List.not_mem_nil _)
      | cons p rest => rfl
  · intro e
    rfl

/-- The strengthened invariant implies the spec's literal iff. -/
theorem strongLoanInv_implies_bookLoanInv (db : DB) (h : StrongLoanInv db) :
    BookLoanInv db := by
  intro id b hb
  have hc := h id b hb
  by_cases hst : b.status = BookStatus.BORROWED
  · simp [hst] at hc
    simp [hst, hc]
  · simp [hst] at hc
    simp [hst, hc]

/-- C1 counterexample: the invariant exactly as the spec words it is not
preserved by borrowBook.  In dbTwoLoans the book b1 is AVAILABLE while two
open loan entries reference it, so "status BORROWED iff exactly one open
entry" holds (both sides false); borrowing b1 succeeds and produces a
BORROWED book with three open entries, breaking the iff. -/
theorem bookLoanInv_not_preserved_by_borrow :
    BookLoanInv dbTwoLoans ∧
    LoanStep dbTwoLoans (borrowBook dbTwoLoans "b1" sampleUser "t3" 5).2 ∧
    ¬ BookLoanInv (borrowBook dbTwoLoans "b1" sampleUser "t3" 5).2 := by
  refine ⟨?_, LoanStep.borrow dbTwoLoans "b1" sampleUser "t3" 5 rfl, ?_⟩
  · intro id b hb
    simp [dbTwoLoans, findDoc] at hb
    obtain ⟨h1, rfl⟩ := hb
    subst h1
    decide
  · intro hinv
    have h := hinv "b1" (markBorrowed 5 sampleBookAvailable) (by decide)
    revert h
    decide

/-- C1 (amended): the operations addBook, borrowBook and returnBook
preserve the strengthened invariant — every AVAILABLE book has zero open
loan entries and every BORROWED book exactly one — and this strengthened
invariant implies the invariant as the spec words it.  (The literal iff
alone is not inductive; see the counterexample.) -/
theorem strong_loan_inv_preserved (db db' : DB) (hinv : StrongLoanInv db)
    (hstep : LoanStep db db') : StrongLoanInv db' ∧ BookLoanInv db' := by
  have hmain : StrongLoanInv db' := by
    cases hstep with
    | add data coverUrl newId now hfresh hnoref =>
        intro id b hb
        rw [show (addBook db data coverUrl newId now).2.books
              = setDocIn db.books newId (mkBookDoc data coverUrl now)
              from rfl,
          setDocIn_eq_append db.books newId _ hfresh] at hb
        rw [show (addBook db data coverUrl newId now).2.txs = db.txs
              from rfl]
        by_cases hid : id = newId
        · subst hid
          rw [findDoc_append_right db.books _ id hfresh] at hb
          simp [findDoc] at hb
          rw [← hb]
          rw [show (mkBookDoc data coverUrl now).status
                = BookStatus.AVAILABLE from rfl]
          simp
          exact countBorrowedFor_eq_zero_of_noref db.txs id hnoref
        · cases hfd : findDoc db.books id with
          | none =>
              rw [findDoc_append_right db.books _ id hfd] at hb
              simp [findDoc] at hb
              exact absurd hb.1.symm hid
          | some v =>
              rw [findDoc_append_left db.books _ id v hfd] at hb
              injection hb with hb'
              subst hb'
              exact hinv id v hfd
    | borrow bookId user newTxId now hfresh =>
        cases hfb : findDoc db.books bookId with
        | none =>
            rw [borrowBook_notFound db bookId user newTxId now hfb]
            exact hinv
        | some b0 =>
            by_cases hbs : b0.status = BookStatus.BORROWED
            · rw [borrowBook_conflict db bookId b0 user newTxId now hfb hbs]
              exact hinv
            · rw [borrowBook_success db bookId b0 user newTxId now hfb hbs]
              intro id b hb
              dsimp only at hb ⊢
              rw [setDocIn_eq_append db.txs newTxId _ hfresh,
                countBorrowedFor_append]
              by_cases hid : id = bookId
              · subst hid
                rw [findDoc_updateDocIn_self, hfb] at hb
                injection hb with hb'
                subst hb'
                have h0 : countBorrowedFor db.txs id = 0 := by
                  have hx := hinv id b0 hfb
                  simpa [hbs] using hx
                rw [h0]
                simp [countBorrowedFor, List.countP_cons, isOpenLoanFor,
                  newLoanEntry, markBorrowed]
              · rw [findDoc_updateDocIn_ne db.books id bookId _
                  (Ne.symm hid)] at hb
                have hx := hinv id b hb
                have h1 : countBorrowedFor
                    [(newTxId, newLoanEntry bookId user b0 now)] id = 0 := by
                  simp [countBorrowedFor, List.countP_cons, isOpenLoanFor,
                    newLoanEntry]
                  exact fun h => hid h.symm
                rw [h1, hx, Nat.add_zero]
    | ret tid now =>
        cases hft : findDoc db.txs tid with
        | none =>
            rw [returnBook_txMissing db tid now hft]
            exact hinv
        | some t =>
            by_cases hrs : t.status = TxStatus.RETURNED
            · rw [returnBook_alreadyReturned db tid t now hft hrs]
              exact hinv
            · cases hfb : findDoc db.books t.bookId with
              | none =>
                  rw [returnBook_bookMissing db tid t now hft hrs hfb]
                  exact hinv
              | some b0 =>
                  rw [returnBook_success db tid t b0 now hft hrs hfb]
                  obtain ⟨l₁, l₂, hsplit, hl₁⟩ := findDoc_split db.txs tid t hft
                  have htx' : updateDocIn db.txs tid (markReturned now)
                      = l₁ ++ (tid, markReturned now t) :: l₂ := by
                    rw [hsplit]
                    exact updateDocIn_append_cons l₁ l₂ tid t _ hl₁
                  have htb := txStatus_borrowed_of_not_returned t hrs
                  have hopen : isOpenLoanFor t.bookId (tid, t) = true := by
                    simp [isOpenLoanFor, htb]
                  have hcnt := hinv t.bookId b0 hfb
                  rw [hsplit, countBorrowedFor_append,
                    countBorrowedFor_cons, hopen] at hcnt
                  have hb0 : b0.status = BookStatus.BORROWED := by
                    by_contra hcon
                    simp [hcon] at hcnt
                  rw [if_pos hb0] at hcnt
                  simp only [if_true] at hcnt
                  have hl1z : countBorrowedFor l₁ t.bookId = 0 := by omega
                  have hl2z : countBorrowedFor l₂ t.bookId = 0 := by omega
                  intro id b hb
                  dsimp only at hb ⊢
                  rw [htx', countBorrowedFor_append, countBorrowedFor_cons]
                  by_cases hid : id = t.bookId
                  · subst hid
                    rw [findDoc_updateDocIn_self, hfb] at hb
                    injection hb with hb'
                    subst hb'
                    rw [hl1z, hl2z]
                    simp [isOpenLoanFor, markReturned, markAvailable]
                  · rw [findDoc_updateDocIn_ne db.books id t.bookId _
                      (Ne.symm hid)] at hb
                    have hx := hinv id b hb
                    rw [hsplit, countBorrowedFor_append,
                      countBorrowedFor_cons] at hx
                    have hz1 : isOpenLoanFor id (tid, t) = false := by
                      simp [isOpenLoanFor]
                      intro h
                      exact absurd h.symm hid
                    have hz2 : isOpenLoanFor id (tid, markReturned now t)
                        = false := by
                      simp [isOpenLoanFor, markReturned]
                    rw [hz1] at hx
                    rw [hz2]
                    simpa using hx
  exact ⟨hmain, strongLoanInv_implies_bookLoanInv db' hmain⟩

/-- C8 counterexample: failures are not mapped into the closed taxonomy
at the boundary.  When the store transaction fails with a provider error,
the catch block rethrows `new Error(error.message || fallback)`: the
provider's message is surfaced verbatim to the caller and belongs to none
of NotFound, Conflict, TransientFailure. -/
theorem store_error_leaks_unclassified :
    borrowBookWith (some storeErr) dbAvail "b1" sampleUser "t1" 1 =
      (.error storeErr, dbAvail) ∧
    returnBookWith (some storeErr) dbBorrowed "t1" 2 =
      (.error storeErr, dbBorrowed) ∧
    classifyMessage storeErr.message = none := by
  refine ⟨?_, ?_, rfl⟩
  · rfl
  · rfl

/-- C8 (amended): every failure of Borrow or Return is surfaced to the
caller by rethrowing (never swallowed), with no retry and the store left
unchanged; the rethrown value is an untyped Error whose message is either
one of the operation's fixed precondition messages (corresponding to
NotFound or Conflict) or the store error's own message rethrown verbatim
(the generic fallback when that message is empty) — store-specific
failures are not mapped into a closed taxonomy. -/
theorem failures_untyped_but_surfaced (so : Option JsError) (db : DB)
    (bookId tid : String) (user : User) (newTxId : String) (now : Nat) :
    (∀ e db₂, borrowBookWith so db bookId user newTxId now =
        (.error e, db₂) →
      db₂ = db ∧
      (e.message = "Buku tidak ditemukan." ∨
       e.message = "Buku sedang dipinjam." ∨
       ∃ se, so = some se ∧
         e = rethrow "Gagal meminjam buku. Silakan coba lagi." se)) ∧
    (∀ e db₂, returnBookWith so db tid now = (.error e, db₂) →
      db₂ = db ∧
      (e.message = "Transaksi tidak ditemukan." ∨
       e.message = "Buku sudah dikembalikan sebelumnya." ∨
       e.message = "Buku tidak ditemukan." ∨
       ∃ se, so = some se ∧
         e = rethrow "Gagal mengembalikan buku. Silakan coba lagi." se)) := by
  constructor
  · intro e db₂ h
    cases so with
    | some se =>
        simp only [borrowBookWith] at h
        injection h with h1 h2
        injection h1 with h1'
        exact ⟨h2.symm, Or.inr (Or.inr ⟨se, rfl, h1'.symm⟩)⟩
    | none =>
        simp only [borrowBookWith] at h
        cases hfb : findDoc db.books bookId with
        | none =>
            rw [borrowBook_notFound db bookId user newTxId now hfb] at h
            injection h with h1 h2
            injection h1 with h1'
            exact ⟨h2.symm, Or.inl (by rw [← h1'])⟩
        | some b0 =>
            by_cases hbs : b0.status = BookStatus.BORROWED
            · rw [borrowBook_conflict db bookId b0 user newTxId now hfb hbs]
                at h
              injection h with h1 h2
              injection h1 with h1'
              exact ⟨h2.symm, Or.inr (Or.inl (by rw [← h1']))⟩
            · rw [borrowBook_success db bookId b0 user newTxId now hfb hbs]
                at h
              injection h with h1 h2
              simp at h1
  · intro e db₂ h
    cases so with
    | some se =>
        simp only [returnBookWith] at h
        injection h with h1 h2
        injection h1 with h1'
        exact ⟨h2.symm, Or.inr (Or.inr (Or.inr ⟨se, rfl, h1'.symm⟩))⟩
    | none =>
        simp only [returnBookWith] at h
        cases hft : findDoc db.txs tid with
        | none =>
            rw [returnBook_txMissing db tid now hft] at h
            injection h with h1 h2
            injection h1 with h1'
            exact ⟨h2.symm, Or.inl (by rw [← h1'])⟩
        | some t =>
            by_cases hrs : t.status = TxStatus.RETURNED
            · rw [returnBook_alreadyReturned db tid t now hft hrs] at h
              injection h with h1 h2
              injection h1 with h1'
              exact ⟨h2.symm, Or.inr (Or.inl (by rw [← h1']))⟩
            · cases hfb : findDoc db.books t.bookId with
              | none =>
                  rw [returnBook_bookMissing db tid t now hft hrs hfb] at h
                  injection h with h1 h2
                  injection h1 with h1'
                  exact ⟨h2.symm, Or.inr (Or.inr (Or.inl (by rw [← h1'])))⟩
              | some b0 =>
                  rw [returnBook_success db tid t b0 now hft hrs hfb] at h
                  injection h with h1 h2
                  simp at h1

/-- C8 witness: a store rejection of the borrow transaction is rethrown
with the provider's message and the store unchanged. -/
theorem failures_untyped_but_surfaced_witness :
    dbAvail = dbAvail ∧
    (storeErr.message = "Buku tidak ditemukan." ∨
     storeErr.message = "Buku sedang dipinjam." ∨
     ∃ se, (some storeErr : Option JsError) = some se ∧
       storeErr = rethrow "Gagal meminjam buku. Silakan coba lagi." se) :=
  (failures_untyped_but_surfaced (some storeErr) dbAvail "b1" "t9" sampleUser
    "t1" 1).1 storeErr dbAvail rfl

/-- C1 witness: an addBook step from the empty store preserves the
strengthened invariant and yields the spec's invariant. -/
theorem strong_loan_inv_preserved_witness :
    StrongLoanInv (addBook emptyDB sampleAddData "" "b1" 0).2 ∧
    BookLoanInv (addBook emptyDB sampleAddData "" "b1" 0).2 :=
  strong_loan_inv_preserved emptyDB _
    (by
      intro id b hb
      simp [emptyDB, findDoc] at hb)
    (LoanStep.add emptyDB sampleAddData "" "b1" 0 rfl
      (by
        intro p hp
        simp [emptyDB] at hp))

end Perpus
